import Mathlib

/-!
Verification of the DoodleDiary application core (src/App.tsx, src/types.ts).

The data model and the operations of the Session Controller, History Store
and Archive Exporter are shallowly embedded as pure Lean functions.  The
asynchronous remote calls of the AI gateway are modelled as explicit
call-result parameters (an `Except` value per call), and the pair returned
by a handler is the resulting application state together with the number of
remote calls made.  Browser storage (localStorage plus JSON.parse) is
modelled by an explicit `saved` blob and an arbitrary total parse function
that returns `none` where JSON.parse would throw.
-/

namespace DoodleDiary

/-- Line thickness choices, from the union type in src/types.ts. -/
inductive Thickness where
  | Fine
  | Medium
  | Bold
  deriving DecidableEq, Repr

/-- Art style choices, from the union type in src/types.ts. -/
inductive ArtStyle where
  | Minimalist
  | Crayon
  | FeltTip
  | Charcoal
  | Abstract
  deriving DecidableEq, Repr

/-- DoodleStyle record from src/types.ts: thickness, free-form color name,
and art style. -/
structure DoodleStyle where
  thickness : Thickness
  color : String
  artStyle : ArtStyle
  deriving DecidableEq, Repr

/-- DoodleEntry record from src/types.ts: id, human-readable date,
transcript text, image data URI, derived prompt, and the style in effect. -/
structure DoodleEntry where
  id : String
  date : String
  transcript : String
  imageUrl : String
  prompt : String
  style : DoodleStyle
  deriving DecidableEq, Repr

/-- The App component state (src/App.tsx lines 9-22): the useState hooks
for transcript, the three activity flags, the current doodle reference,
the history list, the error banner and the style selection. -/
structure AppState where
  transcript : String
  isRecording : Bool
  isGenerating : Bool
  isExporting : Bool
  currentDoodle : Option DoodleEntry
  history : List DoodleEntry
  error : Option String
  style : DoodleStyle
  deriving DecidableEq, Repr

/-- The initial component state (src/App.tsx lines 9-22): empty transcript,
all flags false, no current doodle, empty history, no error, and the
default style Medium / Black / Minimalist. -/
def initialState : AppState :=
  { transcript := ""
    isRecording := false
    isGenerating := false
    isExporting := false
    currentDoodle := none
    history := []
    error := none
    style := { thickness := Thickness.Medium, color := "Black", artStyle := ArtStyle.Minimalist } }

/-- History Store insertion: src/App.tsx line 89,
`setHistory(prev => [newEntry, ...prev])`. -/
def addHistory (e : DoodleEntry) (h : List DoodleEntry) : List DoodleEntry :=
  e :: h

/-- History Store removal: src/App.tsx line 153,
`setHistory(prev => prev.filter(e => e.id !== id))`. -/
def removeHistory (id : String) (h : List DoodleEntry) : List DoodleEntry :=
  h.filter (fun e => e.id ≠ id)

/-- deleteEntry (src/App.tsx lines 152-155): filter the history by id and
clear the current-doodle reference when it points at the deleted id
(`if (currentDoodle?.id === id) setCurrentDoodle(null)`; when currentDoodle
is null, the optional chain yields undefined, which is not === a string id,
so the reference is left as it was). -/
def deleteEntry (id : String) (s : AppState) : AppState :=
  { s with
    history := removeHistory id s.history
    currentDoodle :=
      match s.currentDoodle with
      | some d => if d.id = id then none else some d
      | none => none }

/-- One part of the image-model response; `inlineData` carries the base64
payload string when present (src/App.tsx lines 579-584). -/
structure InlinePart where
  inlineData : Option String
  deriving DecidableEq, Repr

/-- GeminiService.generateDoodle result assembly (src/App.tsx lines 578-585):
imageUrl starts as the empty string; the loop takes the first part with
inlineData, builds a data URI from its payload and breaks; with no such
part the empty string is returned. -/
def extractImageUrl : List InlinePart → String
  | [] => ""
  | p :: rest =>
    match p.inlineData with
    | some d => "data:image/png;base64," ++ d
    | none => extractImageUrl rest

/-- JavaScript's String.prototype.trim as used by the guard
`!transcript.trim()` (src/App.tsx line 71): the string with leading and
trailing whitespace characters removed, so the result is empty exactly on
whitespace-only input. -/
def trimWs (t : String) : String :=
  String.mk (((t.data.dropWhile Char.isWhitespace).reverse.dropWhile Char.isWhitespace).reverse)

/-- The environment of one invocation of handleGenerateDoodle: the result of
each of the two awaited remote calls (promise rejection is `Except.error`),
and the creation-time clock values used for the new entry's id
(`Date.now().toString()`) and date string. -/
structure GenEffects where
  promptCall : Except Unit String
  imageCall : Except Unit (List InlinePart)
  nowId : String
  nowDate : String

/-- The fixed generation failure banner (src/App.tsx line 93). -/
def genErrorMessage : String := "Failed to generate doodle. Please try again."

/-- handleGenerateDoodle (src/App.tsx lines 70-97).  Returns the next state
and the number of remote calls made.  The guard `if (!transcript.trim())
return;` fires exactly on a whitespace-only transcript.  Inside the try
block, a rejected first call makes one remote call and reaches the catch
handler; a rejected second call makes two; when both resolve, the new entry
is built from the captured transcript, the extracted image URL, the visual
prompt and a copy of the current style, becomes the current doodle, is
prepended to the history, and the input transcript is cleared.  setError
is set to null up front and to the fixed message in the catch handler; the
finally block resets isGenerating in every completed path. -/
def handleGenerateDoodle (eff : GenEffects) (s : AppState) : AppState × Nat :=
  if trimWs s.transcript = "" then (s, 0)
  else
    match eff.promptCall with
    | Except.error _ =>
      ({ s with isGenerating := false, error := some genErrorMessage }, 1)
    | Except.ok visualPrompt =>
      match eff.imageCall with
      | Except.error _ =>
        ({ s with isGenerating := false, error := some genErrorMessage }, 2)
      | Except.ok parts =>
        let newEntry : DoodleEntry :=
          { id := eff.nowId
            date := eff.nowDate
            transcript := s.transcript
            imageUrl := extractImageUrl parts
            prompt := visualPrompt
            style := s.style }
        ({ s with
            transcript := ""
            isGenerating := false
            error := none
            currentDoodle := some newEntry
            history := addHistory newEntry s.history }, 2)

/-- The generate button's disabled condition (src/App.tsx line 229):
`disabled={!transcript.trim() || isGenerating}`. -/
def generateDisabled (s : AppState) : Bool :=
  trimWs s.transcript = "" || s.isGenerating

/-- The generate action as wired to the UI (src/App.tsx lines 228-231): a
disabled button does not fire its onClick handler, so when the transcript
is whitespace-only or a generation is already active nothing runs and no
remote call is made; otherwise the click runs handleGenerateDoodle. -/
def generateAction (eff : GenEffects) (s : AppState) : AppState × Nat :=
  if generateDisabled s then (s, 0) else handleGenerateDoodle eff s

/-- One file placed in a zip folder: its name and its content string.  For
image files the content is the base64 payload handed to JSZip with
`\x7b base64: true \x7d`, which decodes that payload into the file's
binary bytes. -/
structure ZipFile where
  name : String
  content : String
  deriving DecidableEq, Repr

/-- One element of the manifest's entries array (src/App.tsx lines 124-129):
exactly the four fields id, date, style and prompt; neither the transcript
nor the image is part of it. -/
structure ManifestEntry where
  id : String
  date : String
  style : DoodleStyle
  prompt : String
  deriving DecidableEq, Repr

/-- The base file name shared by an entry's transcript and image files
(src/App.tsx line 113). -/
def fileNameBase (e : DoodleEntry) : String := "doodle-" ++ e.id

/-- The image payload extraction (src/App.tsx lines 119-120):
`entry.imageUrl.split(',')[1]` is the chunk after the first comma
(undefined when there is no comma), and the `if (base64Data)` guard also
rejects the empty string, JavaScript's other falsy string value. -/
def base64Data (imageUrl : String) : Option String :=
  match (imageUrl.splitOn ",").get? 1 with
  | some p => if p = "" then none else some p
  | none => none

/-- The three per-entry outputs of the export loop. -/
structure ExportFiles where
  images : List ZipFile
  transcripts : List ZipFile
  manifest : List ManifestEntry
  deriving DecidableEq, Repr

/-- The export loop body (src/App.tsx lines 111-130), iterating the history
in order: every entry contributes a transcript file and a manifest record;
an image file is added only when the base64 payload guard passes. -/
def exportEntries : List DoodleEntry → ExportFiles
  | [] => { images := [], transcripts := [], manifest := [] }
  | e :: rest =>
    let acc := exportEntries rest
    { images :=
        match base64Data e.imageUrl with
        | some p => { name := fileNameBase e ++ ".png", content := p } :: acc.images
        | none => acc.images
      transcripts := { name := fileNameBase e ++ ".txt", content := e.transcript } :: acc.transcripts
      manifest := { id := e.id, date := e.date, style := e.style, prompt := e.prompt } :: acc.manifest }

/-- The assembled archive: the two folders, the manifest's entries array and
the single exportedAt timestamp written into index.json
(src/App.tsx line 132). -/
structure ExportResult where
  images : List ZipFile
  transcripts : List ZipFile
  manifest : List ManifestEntry
  exportedAt : String
  deriving DecidableEq, Repr

/-- handleExportArchive (src/App.tsx lines 99-150): a no-op on an empty
history (`if (history.length === 0) return;`, no bundle produced);
otherwise the loop fills the two folders and the metadata array, and
index.json records the entries array plus one export timestamp. -/
def handleExportArchive (now : String) (history : List DoodleEntry) : Option ExportResult :=
  if history.length = 0 then none
  else
    let files := exportEntries history
    some
      { images := files.images
        transcripts := files.transcripts
        manifest := files.manifest
        exportedAt := now }

/-- The load effect (src/App.tsx lines 26-35): read the saved blob; when it
is absent nothing happens; when JSON.parse succeeds its result becomes the
history; when JSON.parse throws, the catch handler only logs and the state
is left untouched.  JSON.parse is modelled as an arbitrary total parse
function that returns none where it would throw. -/
def loadEffect (parse : String → Option (List DoodleEntry)) (saved : Option String)
    (s : AppState) : AppState :=
  match saved with
  | none => s
  | some b =>
    match parse b with
    | some h => { s with history := h }
    | none => s

/-- A style value used by the concrete witness inputs below. -/
def sampleStyle : DoodleStyle :=
  { thickness := Thickness.Medium, color := "Black", artStyle := ArtStyle.Minimalist }

/-- A history entry with a well-formed image data URI. -/
def sampleEntryA : DoodleEntry :=
  { id := "101", date := "Monday", transcript := "tA"
    imageUrl := "data:image/png;base64,QUJD", prompt := "pA", style := sampleStyle }

/-- A history entry whose imageUrl has no comma, hence no base64 payload. -/
def sampleEntryB : DoodleEntry :=
  { id := "202", date := "Tuesday", transcript := "tB"
    imageUrl := "nopayload", prompt := "pB", style := sampleStyle }

/-- An image response with one inline-data part, for the witness inputs. -/
def sampleParts : List InlinePart := [{ inlineData := some "QUJD" }]

/-- Remote-call results where both calls resolve and the image response has
one inline-data part. -/
def effOk : GenEffects :=
  { promptCall := Except.ok "vp", imageCall := Except.ok sampleParts, nowId := "7", nowDate := "D" }

/-- Remote-call results where the first remote call rejects. -/
def effFail : GenEffects :=
  { promptCall := Except.error (), imageCall := Except.ok sampleParts, nowId := "7", nowDate := "D" }

/-- Remote-call results where both calls resolve but the image response
contains no inline-data part, so extractImageUrl yields the empty string. -/
def effNoPart : GenEffects :=
  { promptCall := Except.ok "vp", imageCall := Except.ok [], nowId := "7", nowDate := "D" }

/-- A state with a non-empty transcript while a generation is already
active. -/
def c3state : AppState := { initialState with transcript := "x", isGenerating := true }

/-- A state with a non-empty transcript and generation idle. -/
def c4state : AppState := { initialState with transcript := "Had a picnic" }

/-- Another state with a non-empty transcript and generation idle. -/
def c5state : AppState := { initialState with transcript := "A rainy afternoon" }

/-- Two distinct entries sharing the same id "1": nothing in the code
checks ids for uniqueness, and Date.now based ids can collide. -/
def c6dupA : DoodleEntry :=
  { id := "1", date := "d", transcript := "tA", imageUrl := "", prompt := "p", style := sampleStyle }

/-- The second entry sharing id "1". -/
def c6dupB : DoodleEntry :=
  { id := "1", date := "d", transcript := "tB", imageUrl := "", prompt := "p", style := sampleStyle }

/-- The entry referenced by the current-doodle pointer in the C9 witness. -/
def c9entry : DoodleEntry :=
  { id := "9", date := "d", transcript := "t", imageUrl := "", prompt := "p", style := sampleStyle }

/-- A state whose current-doodle reference points at c9entry. -/
def c9state : AppState :=
  { initialState with currentDoodle := some c9entry, history := [c9entry] }

theorem exportEntries_manifest (h : List DoodleEntry) :
    (exportEntries h).manifest =
      h.map (fun e => { id := e.id, date := e.date, style := e.style, prompt := e.prompt }) := by
  induction h with
  | nil => rfl
  | cons e rest ih => simp [exportEntries, ih]

theorem exportEntries_transcripts (h : List DoodleEntry) :
    (exportEntries h).transcripts =
      h.map (fun e => { name := fileNameBase e ++ ".txt", content := e.transcript }) := by
  induction h with
  | nil => rfl
  | cons e rest ih => simp [exportEntries, ih]

theorem exportEntries_images (h : List DoodleEntry) :
    (exportEntries h).images =
      h.filterMap (fun e =>
        (base64Data e.imageUrl).map (fun p => { name := fileNameBase e ++ ".png", content := p })) := by
  induction h with
  | nil => rfl
  | cons e rest ih =>
    cases hb : base64Data e.imageUrl with
    | none => simp [exportEntries, List.filterMap_cons, hb, ih]
    | some p => simp [exportEntries, List.filterMap_cons, hb, ih]

theorem exportEntries_images_length (h : List DoodleEntry) :
    (exportEntries h).images.length = h.countP (fun e => (base64Data e.imageUrl).isSome) := by
  induction h with
  | nil => rfl
  | cons e rest ih =>
    cases hb : base64Data e.imageUrl with
    | none => simp [exportEntries, List.countP_cons, hb, ih]
    | some p => simp [exportEntries, List.countP_cons, hb, ih]

/-- C1: for every non-empty history, export produces an index.json manifest
whose entries array has exactly one element per history entry, whose ids
exactly match the history's ids, each manifest entry holding exactly the
fields id, date, style and prompt of its history entry (a ManifestEntry
has no transcript and no image field), alongside the single exportedAt
timestamp. -/
theorem c1_export_manifest (now : String) (h : List DoodleEntry) (hne : h ≠ []) :
    ∃ res, handleExportArchive now h = some res ∧
      res.manifest.length = h.length ∧
      res.manifest.map ManifestEntry.id = h.map DoodleEntry.id ∧
      res.manifest =
        h.map (fun e => { id := e.id, date := e.date, style := e.style, prompt := e.prompt }) ∧
      res.exportedAt = now := by
  have hlen : ¬ h.length = 0 := by simp [List.length_eq_zero, hne]
  unfold handleExportArchive
  rw [if_neg hlen]
  refine ⟨_, rfl, ?_, ?_, ?_, rfl⟩
  · rw [exportEntries_manifest]; simp
  · rw [exportEntries_manifest, List.map_map]; rfl
  · exact exportEntries_manifest h

/-- C1 witness: export of the two-entry history [sampleEntryA, sampleEntryB]
at timestamp "T" has the stated manifest shape. -/
theorem c1_export_manifest_witness :
    ∃ res, handleExportArchive "T" [sampleEntryA, sampleEntryB] = some res ∧
      res.manifest.length = ([sampleEntryA, sampleEntryB] : List DoodleEntry).length ∧
      res.manifest.map ManifestEntry.id =
        ([sampleEntryA, sampleEntryB] : List DoodleEntry).map DoodleEntry.id ∧
      res.manifest =
        ([sampleEntryA, sampleEntryB] : List DoodleEntry).map
          (fun e => { id := e.id, date := e.date, style := e.style, prompt := e.prompt }) ∧
      res.exportedAt = "T" :=
  c1_export_manifest "T" [sampleEntryA, sampleEntryB] (by decide)

/-- C2: for every entry of an exported history, a transcript file and a
manifest entry are always emitted; when the entry's imageUrl has a
well-formed payload (something follows the first comma), an image file
named from the entry's id carries exactly that stripped payload as its
(base64-encoded) content; every image file in the archive stems from some
entry with a well-formed payload, and their number is the count of such
entries, so entries with a malformed or missing payload contribute no
image file. -/
theorem c2_export_image_payloads (now : String) (h : List DoodleEntry) (e : DoodleEntry)
    (hne : h ≠ []) (he : e ∈ h) :
    ∃ res, handleExportArchive now h = some res ∧
      ({ name := fileNameBase e ++ ".txt", content := e.transcript } : ZipFile) ∈ res.transcripts ∧
      ({ id := e.id, date := e.date, style := e.style, prompt := e.prompt } : ManifestEntry)
        ∈ res.manifest ∧
      (∀ p, base64Data e.imageUrl = some p →
        ({ name := fileNameBase e ++ ".png", content := p } : ZipFile) ∈ res.images) ∧
      (∀ f ∈ res.images, ∃ e2 ∈ h, base64Data e2.imageUrl = some f.content ∧
        f.name = fileNameBase e2 ++ ".png") ∧
      res.images.length = h.countP (fun e2 => (base64Data e2.imageUrl).isSome) := by
  have hlen : ¬ h.length = 0 := by simp [List.length_eq_zero, hne]
  unfold handleExportArchive
  rw [if_neg hlen]
  refine ⟨_, rfl, ?_, ?_, ?_, ?_, exportEntries_images_length h⟩
  · rw [exportEntries_transcripts]
    exact List.mem_map_of_mem _ he
  · rw [exportEntries_manifest]
    exact List.mem_map_of_mem _ he
  · intro p hp
    rw [exportEntries_images]
    refine List.mem_filterMap.mpr ⟨e, he, ?_⟩
    rw [hp]; rfl
  · intro f hf
    rw [exportEntries_images] at hf
    rcases List.mem_filterMap.mp hf with ⟨e2, he2, hval⟩
    cases hb : base64Data e2.imageUrl with
    | none => rw [hb] at hval; simp at hval
    | some p =>
      rw [hb] at hval
      simp at hval
      exact ⟨e2, he2, by rw [hb, ← hval], by rw [← hval]⟩

/-- C2 witness: exporting [sampleEntryA, sampleEntryB] at "T", the
well-formed entry sampleEntryA has its image file with the stripped
payload, every image file stems from a well-formed entry, and exactly one
image file is produced. -/
theorem c2_export_image_payloads_witness :
    ∃ res, handleExportArchive "T" [sampleEntryA, sampleEntryB] = some res ∧
      ({ name := fileNameBase sampleEntryA ++ ".txt", content := sampleEntryA.transcript } : ZipFile)
        ∈ res.transcripts ∧
      ({ id := sampleEntryA.id, date := sampleEntryA.date, style := sampleEntryA.style,
         prompt := sampleEntryA.prompt } : ManifestEntry) ∈ res.manifest ∧
      (∀ p, base64Data sampleEntryA.imageUrl = some p →
        ({ name := fileNameBase sampleEntryA ++ ".png", content := p } : ZipFile) ∈ res.images) ∧
      (∀ f ∈ res.images, ∃ e2 ∈ ([sampleEntryA, sampleEntryB] : List DoodleEntry),
        base64Data e2.imageUrl = some f.content ∧ f.name = fileNameBase e2 ++ ".png") ∧
      res.images.length =
        ([sampleEntryA, sampleEntryB] : List DoodleEntry).countP
          (fun e2 => (base64Data e2.imageUrl).isSome) :=
  c2_export_image_payloads "T" [sampleEntryA, sampleEntryB] sampleEntryA (by decide) (by decide)

/-- C3: when the transcript is whitespace-only or a generation is already
active, the generate button is disabled and its click handler does not
fire: the state is unchanged and no remote call is made; independently,
the handler's own guard makes it a no-op on a whitespace-only
transcript. -/
theorem c3_generate_gated (eff : GenEffects) (s : AppState)
    (hyp : trimWs s.transcript = "" ∨ s.isGenerating = true) :
    generateAction eff s = (s, 0) ∧
    (trimWs s.transcript = "" → handleGenerateDoodle eff s = (s, 0)) := by
  constructor
  · have hd : generateDisabled s = true := by
      cases hyp with
      | inl h1 => simp [generateDisabled, h1]
      | inr h2 => simp [generateDisabled, h2]
    simp [generateAction, hd]
  · intro h1
    simp [handleGenerateDoodle, h1]

/-- C3 witness: with a non-empty transcript but generation already active,
the generate action changes nothing and makes no remote call. -/
theorem c3_generate_gated_witness :
    generateAction effOk c3state = (c3state, 0) ∧
    (trimWs c3state.transcript = "" → handleGenerateDoodle effOk c3state = (c3state, 0)) :=
  c3_generate_gated effOk c3state (Or.inr rfl)

/-- C4 counterexample: with transcript "Had a picnic", both remote calls
resolving (prompt "vp", image response with no inline-data part), the
handler still creates and prepends an entry, but its imageUrl is the
empty string, refuting the claimed non-empty imageUrl. -/
theorem c4_counterexample :
    effNoPart.promptCall = Except.ok "vp" ∧
    effNoPart.imageCall = Except.ok [] ∧
    ((handleGenerateDoodle effNoPart c4state).1.history.map DoodleEntry.imageUrl).head? =
      some "" := by
  exact ⟨rfl, rfl, by decide⟩

theorem extractImageUrl_ne_empty (parts : List InlinePart)
    (hp : parts.any (fun q => q.inlineData.isSome) = true) :
    extractImageUrl parts ≠ "" := by
  induction parts with
  | nil => simp at hp
  | cons q rest ih =>
    cases hq : q.inlineData with
    | some d =>
      simp only [extractImageUrl, hq]
      intro hEq
      have hlen := congrArg String.length hEq
      rw [String.length_append] at hlen
      have h22 : String.length "data:image/png;base64," = 22 := by decide
      have h0 : String.length "" = 0 := by decide
      omega
    | none =>
      simp only [extractImageUrl, hq]
      apply ih
      simpa [hq] using hp

/-- C4 (amended): when both remote calls succeed, the handler clears the
input transcript, sets the new entry as current, and prepends it to
History at index 0 with the style and transcript in effect; its imageUrl
is the one extracted from the image response, non-empty whenever the
successful response contains an inline-data part, but the empty string
when it contains none. -/
theorem c4_generate_success (eff : GenEffects) (s : AppState) (vp : String)
    (parts : List InlinePart)
    (ht : ¬ trimWs s.transcript = "")
    (hp : eff.promptCall = Except.ok vp)
    (hi : eff.imageCall = Except.ok parts) :
    ∃ newEntry : DoodleEntry,
      (handleGenerateDoodle eff s).1 =
        { s with
            transcript := ""
            isGenerating := false
            error := none
            currentDoodle := some newEntry
            history := addHistory newEntry s.history } ∧
      newEntry.style = s.style ∧
      newEntry.transcript = s.transcript ∧
      newEntry.prompt = vp ∧
      newEntry.imageUrl = extractImageUrl parts ∧
      (parts.any (fun q => q.inlineData.isSome) = true → newEntry.imageUrl ≠ "") := by
  refine ⟨{ id := eff.nowId, date := eff.nowDate, transcript := s.transcript,
            imageUrl := extractImageUrl parts, prompt := vp, style := s.style },
          ?_, rfl, rfl, rfl, rfl, ?_⟩
  · simp [handleGenerateDoodle, ht, hp, hi, addHistory]
  · exact fun hp2 => extractImageUrl_ne_empty parts hp2

/-- C4 witness: a successful generation from state c4state with the
effOk call results, instantiating the amended statement. -/
theorem c4_generate_success_witness :
    ∃ newEntry : DoodleEntry,
      (handleGenerateDoodle effOk c4state).1 =
        { c4state with
            transcript := ""
            isGenerating := false
            error := none
            currentDoodle := some newEntry
            history := addHistory newEntry c4state.history } ∧
      newEntry.style = c4state.style ∧
      newEntry.transcript = c4state.transcript ∧
      newEntry.prompt = "vp" ∧
      newEntry.imageUrl = extractImageUrl sampleParts ∧
      (sampleParts.any (fun q => q.inlineData.isSome) = true → newEntry.imageUrl ≠ "") :=
  c4_generate_success effOk c4state "vp" sampleParts (by decide) rfl rfl

/-- C5: with a non-empty transcript, if either remote call rejects, the
handler leaves history, current doodle and transcript unchanged, creates
no entry, surfaces the single generic error message, and resets the
generating flag to idle. -/
theorem c5_generate_failure (eff : GenEffects) (s : AppState)
    (ht : ¬ trimWs s.transcript = "")
    (hf : eff.promptCall = Except.error () ∨ eff.imageCall = Except.error ()) :
    (handleGenerateDoodle eff s).1 =
      { s with isGenerating := false, error := some genErrorMessage } ∧
    (handleGenerateDoodle eff s).1.history = s.history ∧
    (handleGenerateDoodle eff s).1.currentDoodle = s.currentDoodle ∧
    (handleGenerateDoodle eff s).1.error = some genErrorMessage ∧
    (handleGenerateDoodle eff s).1.isGenerating = false := by
  have key : (handleGenerateDoodle eff s).1 =
      { s with isGenerating := false, error := some genErrorMessage } := by
    cases hf with
    | inl h1 => simp [handleGenerateDoodle, ht, h1]
    | inr h2 =>
      cases hpc : eff.promptCall with
      | error u => simp [handleGenerateDoodle, ht, hpc]
      | ok vp => simp [handleGenerateDoodle, ht, hpc, h2]
  exact ⟨key, by rw [key], by rw [key], by rw [key], by rw [key]⟩

/-- C5 witness: the failure path at the concrete state c5state with the
rejecting call results effFail. -/
theorem c5_generate_failure_witness :
    (handleGenerateDoodle effFail c5state).1 =
      { c5state with isGenerating := false, error := some genErrorMessage } ∧
    (handleGenerateDoodle effFail c5state).1.history = c5state.history ∧
    (handleGenerateDoodle effFail c5state).1.currentDoodle = c5state.currentDoodle ∧
    (handleGenerateDoodle effFail c5state).1.error = some genErrorMessage ∧
    (handleGenerateDoodle effFail c5state).1.isGenerating = false :=
  c5_generate_failure effFail c5state (by decide) (Or.inl rfl)

theorem removeHistory_length (id : String) (h : List DoodleEntry) :
    (removeHistory id h).length + h.countP (fun e => e.id = id) = h.length := by
  induction h with
  | nil => rfl
  | cons e rest ih =>
    by_cases he : e.id = id
    · simp only [removeHistory, List.filter_cons, List.countP_cons] at *
      simp [he] at *
      omega
    · simp only [removeHistory, List.filter_cons, List.countP_cons] at *
      simp [he] at *
      omega

/-- C6 counterexample: the two-entry history [c6dupA, c6dupB] has both ids
equal to "1"; it contains an entry with id "1", yet remove("1") empties it,
so the size drops by two, not to N-1. -/
theorem c6_counterexample :
    c6dupA ∈ ([c6dupA, c6dupB] : List DoodleEntry) ∧
    c6dupA.id = "1" ∧
    ¬ (removeHistory "1" [c6dupA, c6dupB]).length =
        ([c6dupA, c6dupB] : List DoodleEntry).length - 1 := by
  refine ⟨by simp, rfl, by decide⟩

/-- C6 (amended): remove(id) on a history in which exactly one entry bears
the id yields a history of size N-1; in every case the result is a sublist
of the original, so the relative order of the remaining entries is
unchanged; and on a history containing no entry with the id, remove(id)
leaves the history unchanged. -/
theorem c6_remove_semantics (h : List DoodleEntry) (id : String) :
    (h.countP (fun e => e.id = id) = 1 → (removeHistory id h).length = h.length - 1) ∧
    List.Sublist (removeHistory id h) h ∧
    ((∀ e ∈ h, e.id ≠ id) → removeHistory id h = h) := by
  refine ⟨?_, ?_, ?_⟩
  · intro hone
    have := removeHistory_length id h
    omega
  · exact List.filter_sublist h
  · intro habs
    refine List.filter_eq_self.mpr ?_
    intro a ha
    simpa using habs a ha

/-- C6 witness: on the one-entry history [c6dupA] whose sole id is "1",
remove("1") drops the size to 0 = N-1, and remove("2") is the identity. -/
theorem c6_remove_semantics_witness :
    (removeHistory "1" [c6dupA]).length = ([c6dupA] : List DoodleEntry).length - 1 ∧
    removeHistory "2" [c6dupA] = [c6dupA] :=
  ⟨(c6_remove_semantics [c6dupA] "1").1 (by decide),
   (c6_remove_semantics [c6dupA] "2").2.2 (by decide)⟩

/-- C7: add places the new entry at index 0 and the tail of the result is
exactly the previous history, so the relative order of all pre-existing
entries is unchanged; adding e1 then e2 then e3 to an empty history yields
[e3, e2, e1]. -/
theorem c7_add_front (e e1 e2 e3 : DoodleEntry) (h : List DoodleEntry) :
    (addHistory e h).head? = some e ∧
    (addHistory e h).tail = h ∧
    addHistory e3 (addHistory e2 (addHistory e1 [])) = [e3, e2, e1] :=
  ⟨rfl, rfl, rfl⟩

/-- C8: when the saved blob is absent, or present but failing to parse, the
load effect changes nothing at all (in particular it surfaces no error),
and run on the initial state it leaves the history empty; being a total
function, it propagates no exception. -/
theorem c8_load_corrupt (parse : String → Option (List DoodleEntry))
    (saved : Option String) (s : AppState)
    (hyp : saved = none ∨ ∃ b, saved = some b ∧ parse b = none) :
    loadEffect parse saved s = s ∧
    (loadEffect parse saved initialState).history = [] ∧
    (loadEffect parse saved initialState).error = none := by
  have key : ∀ t : AppState, loadEffect parse saved t = t := by
    intro t
    rcases hyp with h1 | ⟨b, hb, hpb⟩
    · simp [loadEffect, h1]
    · simp [loadEffect, hb, hpb]
  refine ⟨key s, ?_, ?_⟩
  · rw [key initialState]
    rfl
  · rw [key initialState]
    rfl

/-- C8 witness: a corrupt blob (every parse fails) at startup leaves the
initial state untouched, with empty history and no error. -/
theorem c8_load_corrupt_witness :
    loadEffect (fun _ => none) (some "corrupt-blob") initialState = initialState ∧
    (loadEffect (fun _ => none) (some "corrupt-blob") initialState).history = [] ∧
    (loadEffect (fun _ => none) (some "corrupt-blob") initialState).error = none :=
  c8_load_corrupt (fun _ => none) (some "corrupt-blob") initialState
    (Or.inr ⟨"corrupt-blob", rfl, rfl⟩)

/-- C9: deletion by id clears the current-doodle reference exactly when it
points at an entry with that id; a reference to an entry with a different
id, or no reference at all, is left unchanged. -/
theorem c9_delete_current (s : AppState) (id : String) :
    (s.currentDoodle.map DoodleEntry.id = some id →
      (deleteEntry id s).currentDoodle = none) ∧
    (∀ d, s.currentDoodle = some d → ¬ d.id = id →
      (deleteEntry id s).currentDoodle = some d) ∧
    (s.currentDoodle = none → (deleteEntry id s).currentDoodle = none) := by
  refine ⟨?_, ?_, ?_⟩
  · intro hmap
    cases hc : s.currentDoodle with
    | none => rw [hc] at hmap; simp at hmap
    | some d =>
      rw [hc] at hmap
      simp at hmap
      simp [deleteEntry, hc, hmap]
  · intro d hd hne
    simp [deleteEntry, hd, hne]
  · intro hn
    simp [deleteEntry, hn]

/-- C9 witness: deleting id "9" from a state whose current doodle has id
"9" clears the reference; deleting id "8" leaves it pointing at c9entry. -/
theorem c9_delete_current_witness :
    (deleteEntry "9" c9state).currentDoodle = none ∧
    (deleteEntry "8" c9state).currentDoodle = some c9entry :=
  ⟨(c9_delete_current c9state "9").1 (by decide),
   (c9_delete_current c9state "8").2.1 c9entry rfl (by decide)⟩

/-- C10: remove(id) removes every entry whose id equals the argument, not
only the first: filtering the post-state for that id always yields the
empty list, for every history, including those in which several entries
share the id. -/
theorem c10_remove_removes_all (id : String) (h : List DoodleEntry) :
    (removeHistory id h).filter (fun e => e.id = id) = [] := by
  induction h with
  | nil => rfl
  | cons e rest ih =>
    by_cases he : e.id = id
    · simp [removeHistory, List.filter_cons, he] at *
    · simp [removeHistory, List.filter_cons, he] at *

end DoodleDiary
